import Mathlib

/-!
# Peer channel join and peer client construction

A shallow embedding of `peer/channel/join.go` (`getJoinCCSpec`, `executeJoin`,
`join`, the two string error types) and of `peer/common/peerclient.go`
(`NewPeerClientFromEnv`).

Conventions of the embedding.

* A Go pointer or interface value that may be nil is an `Option`.
* A Go function returning `(value, error)` returns a pair whose second
  component is `Option GoError` (`none` is the nil error).
* Calls that leave the package (file system, signer, proposal utilities,
  endorser, configuration, gRPC client constructor, logger) are fields of an
  environment record; every call is written to a trace of `Event`s, in
  program order, so that "was never called" and "was called once with this
  argument" are statements about the trace.
* A nil-pointer dereference, or a method call on a nil interface value, is the
  outcome `Outcome.panicked`.
-/

namespace Peer

/-- Byte slices (`[]byte`). -/
abbrev Bytes := List UInt8

/-- Conversion `[]byte(s)` of a Go string: its UTF-8 bytes. -/
def stringBytes (s : String) : Bytes := s.toUTF8.data.toList

/-- Rendering of an integer under the verb `%d` of `fmt.Sprintf`. -/
def formatInt : Int → String
  | Int.ofNat n => Nat.repr n
  | Int.negSucc n => "-" ++ Nat.repr (n + 1)

/-! ## Error values -/

/-- Method `Error` of the string type `GBFileNotFoundErr` (join.go, lines 55-60). -/
def GBFileNotFoundErr.Error (e : String) : String :=
  "genesis block file not found " ++ e

/-- Method `Error` of the string type `ProposalFailedErr` (join.go, lines 62-67). -/
def ProposalFailedErr.Error (e : String) : String :=
  "proposal failed (err: " ++ e ++ ")"

/-- Go error values, by dynamic type.  `errorString` is what `errors.New` and
`fmt.Errorf` build; `GBFileNotFoundErr` and `ProposalFailedErr` are the two
string types of join.go, compared by their string payload as Go compares
them; `withMessage` is `errors.WithMessage`; `PathError` is `os.PathError`,
with the operation, the file name and the text of the cause; `foreign` is an
error of a type declared elsewhere, known only through its `Error()` text. -/
inductive GoError where
  | errorString (s : String)
  | GBFileNotFoundErr (e : String)
  | ProposalFailedErr (e : String)
  | withMessage (cause : GoError) (msg : String)
  | PathError (Op Path Err : String)
  | foreign (msg : String)
deriving DecidableEq, Repr

/-- The `Error()` method of an error value. -/
def GoError.Error : GoError → String
  | .errorString s => s
  | .GBFileNotFoundErr e => GBFileNotFoundErr.Error e
  | .ProposalFailedErr e => ProposalFailedErr.Error e
  | .withMessage cause msg => msg ++ ": " ++ cause.Error
  | .PathError Op Path Err => Op ++ " " ++ Path ++ ": " ++ Err
  | .foreign msg => msg

/-! ## Protocol messages -/

/-- Message `pb.ChaincodeID`. -/
structure ChaincodeID where
  Path : String := ""
  Name : String := ""
  Version : String := ""
deriving DecidableEq, Repr

/-- Message `pb.ChaincodeInput`. -/
structure ChaincodeInput where
  Args : List Bytes := []
deriving DecidableEq, Repr

/-- Message `pb.ChaincodeSpec`; `Type_` is the field `Type`, a reserved word
here, holding the numeric value of the enum. -/
structure ChaincodeSpec where
  Type_ : Int := 0
  ChaincodeId : Option ChaincodeID := none
  Input : Option ChaincodeInput := none
  Timeout : Int := 0
deriving DecidableEq, Repr

/-- Message `pb.ChaincodeInvocationSpec`. -/
structure ChaincodeInvocationSpec where
  ChaincodeSpec : Option ChaincodeSpec := none
deriving DecidableEq, Repr

/-- Modelled from the spec: the message type `pb.Proposal` is declared in
protos/peer, which is not among the sources; section 3 of the specification
gives it a header type, a channel id, the invocation and the creator. -/
structure Proposal where
  headerType : Int
  channelId : String
  invocationSpec : ChaincodeInvocationSpec
  creator : Bytes
deriving DecidableEq, Repr

/-- Modelled from the spec: the message type `pb.SignedProposal` is declared in
protos/peer; section 3 of the specification gives it the serialized proposal
and the signature. -/
structure SignedProposal where
  ProposalBytes : Bytes
  Signature : Bytes
deriving DecidableEq, Repr

/-- Message `pb.Response`: the status is an `int32`. -/
structure Response where
  Status : Int := 0
  Message : String := ""
  Payload : Bytes := []
deriving DecidableEq, Repr

/-- Message `pb.ProposalResponse`; the field `Response` is a pointer. -/
structure ProposalResponse where
  Version : Int := 0
  Response : Option Response := none
  Payload : Bytes := []
deriving DecidableEq, Repr

/-! ## Client configuration -/

/-- Values of `time.Duration`: a count of nanoseconds. -/
abbrev Duration := Int

/-- Constant `time.Millisecond`. -/
def time.Millisecond : Duration := 1000000

/-- Constant `time.Second`. -/
def time.Second : Duration := 1000000000

/-- Modelled from the spec: `comm.ClientConfig` is declared in core/comm, which
is not among the sources.  The specification gives the configuration a
timeout and treats the rest (TLS material, keep-alive) as configuration that
is passed through without being read; the rest is carried here as two
uninterpreted tokens. -/
structure ClientConfig where
  SecOpts : Option Nat := none
  KaOpts : Option Nat := none
  Timeout : Duration := 0
deriving DecidableEq, Repr

/-- Handle of a `comm.GRPCClient`, uninterpreted. -/
structure GRPCClient where
  handle : Nat
deriving DecidableEq, Repr

/-- Struct `commonClient` embedded in `PeerClient`. -/
structure commonClient where
  GRPCClient : Option GRPCClient
  address : String
  sn : String
deriving DecidableEq, Repr

/-- Struct `PeerClient` (peerclient.go, lines 17-20). -/
structure PeerClient where
  commonClient : commonClient
deriving DecidableEq, Repr

/-! ## Collaborators and the trace of calls -/

/-- Calls that leave the package, as recorded in program order. -/
inductive Event where
  | ReadFile (path : String)
  | InitCmdFactory (endorser orderer : Bool)
  | Serialize
  | GetIdentifier
  | CreateProposalFromCIS (typ : Int) (chainID : String)
      (cis : ChaincodeInvocationSpec) (creator : Bytes)
  | GetSignedProposal (prop : Option Proposal)
  | ProcessProposal (signedProp : Option SignedProposal)
  | Info (msg : String)
  | configFromEnv (pfx : String)
  | NewGRPCClient (config : ClientConfig)
deriving DecidableEq, Repr

/-- Why a read of a file failed: the operation that failed ("open", "read") and
the text of the system error. -/
structure ReadFailure where
  Op : String
  Err : String
deriving DecidableEq, Repr

/-- Interface `msp.SigningIdentity`, as far as the join flow uses it.
`GetIdentifier` is the rendering of the identifier under `%s`. -/
structure SigningIdentity where
  Serialize : Bytes × Option GoError
  GetIdentifier : String
  Sign : Bytes → Bytes × Option GoError

/-- Interface `pb.EndorserClient`: one RPC method. -/
structure EndorserClient where
  ProcessProposal : Option SignedProposal → Option ProposalResponse × Option GoError

/-- Struct `ChannelCmdFactory`, as far as the join flow uses it.  Both fields
are interface values and may be nil. -/
structure ChannelCmdFactory where
  EndorserClient : Option EndorserClient
  Signer : Option SigningIdentity

/-- What lies outside the three source files: constants and tables of other
packages, and the functions the code calls there. -/
structure Externals where
  /-- Constant `cscc.JoinChain`, the operation marker. -/
  JoinChain : String
  /-- Table `pb.ChaincodeSpec_Type_value`. -/
  ChaincodeSpec_Type_value : String → Int
  /-- Constant `pcommon.HeaderType_CONFIG`. -/
  HeaderType_CONFIG : Int
  /-- Constant `EndorserRequired`. -/
  EndorserRequired : Bool
  /-- Constant `OrdererNotRequired`. -/
  OrdererNotRequired : Bool
  /-- The file system: for a file name, the content of the file, or why reading
  it fails. -/
  fileSystem : String → Bytes × Option ReadFailure
  /-- Function `putils.CreateProposalFromCIS`. -/
  CreateProposalFromCIS :
    Int → String → ChaincodeInvocationSpec → Bytes → Option Proposal × String × Option GoError
  /-- Function `putils.GetSignedProposal`. -/
  GetSignedProposal : Option Proposal → SigningIdentity → Option SignedProposal × Option GoError
  /-- Function `InitCmdFactory` of the channel package. -/
  InitCmdFactory : Bool → Bool → Option ChannelCmdFactory × Option GoError
  /-- Function `configFromEnv` of the common package. -/
  configFromEnv : String → String × String × ClientConfig × Option GoError
  /-- Function `comm.NewGRPCClient`. -/
  NewGRPCClient : ClientConfig → Option GRPCClient × Option GoError

/-- Modelled from the spec: the constant `common.UndefinedParamValue` is declared
in peer/common/common.go, which is not among the sources; section 8 of the
specification identifies the undefined genesis block path with the empty
string. -/
def UndefinedParamValue : String := ""

/-- How a call ends: it returns its error result, or the goroutine panics. -/
inductive Outcome where
  | returned (err : Option GoError)
  | panicked (msg : String)
deriving DecidableEq, Repr

/-- Text of the runtime error raised by a nil-pointer dereference. -/
def nilDereference : String :=
  "runtime error: invalid memory address or nil pointer dereference"

/-- Function `ioutil.ReadFile` of the Go standard library, over the file system
of the environment: the content of the file and a nil error, or no content
and an `os.PathError` that holds the failed operation, the file name the
function was given and the cause. -/
def ioutil.ReadFile (x : Externals) (filename : String) : Bytes × Option GoError :=
  match x.fileSystem filename with
  | (_, some failure) => ([], some (GoError.PathError failure.Op filename failure.Err))
  | (content, none) => (content, none)

/-! ## join.go -/

/-- Function `getJoinCCSpec` (join.go, lines 69-88).  The package-level variable
`genesisBlockPath` is an argument. -/
def getJoinCCSpec (x : Externals) (genesisBlockPath : String) :
    (Option ChaincodeSpec × Option GoError) × List Event :=
  if genesisBlockPath = UndefinedParamValue then
    ((none, some (GoError.errorString "Must supply genesis block file")), [])
  else
    match ioutil.ReadFile x genesisBlockPath with
    | (_, some err) =>
      ((none, some (GoError.GBFileNotFoundErr err.Error)), [Event.ReadFile genesisBlockPath])
    | (gb, none) =>
      let input : ChaincodeInput := { Args := [stringBytes x.JoinChain, gb] }
      let spec : ChaincodeSpec :=
        { Type_ := x.ChaincodeSpec_Type_value "GOLANG"
          ChaincodeId := some { Name := "cscc" }
          Input := some input }
      ((some spec, none), [Event.ReadFile genesisBlockPath])

/-- Function `executeJoin` (join.go, lines 90-134). -/
def executeJoin (x : Externals) (genesisBlockPath : String) (cf : Option ChannelCmdFactory) :
    Outcome × List Event :=
  match getJoinCCSpec x genesisBlockPath with
  | ((_, some err), t0) => (Outcome.returned (some err), t0)
  | ((spec, none), t0) =>
    let invocation : ChaincodeInvocationSpec := { ChaincodeSpec := spec }
    match cf with
    | none => (Outcome.panicked nilDereference, t0)
    | some cf =>
      match cf.Signer with
      | none => (Outcome.panicked nilDereference, t0)
      | some signer =>
        match signer.Serialize with
        | (_, some err) =>
          (Outcome.returned (some (GoError.errorString
              ("Error serializing identity for " ++ signer.GetIdentifier ++ ": " ++ err.Error))),
            t0 ++ [Event.Serialize, Event.GetIdentifier])
        | (creator, none) =>
          let t1 := t0 ++ [Event.Serialize,
            Event.CreateProposalFromCIS x.HeaderType_CONFIG "" invocation creator]
          match x.CreateProposalFromCIS x.HeaderType_CONFIG "" invocation creator with
          | (_, _, some err) =>
            (Outcome.returned (some (GoError.errorString
                ("Error creating proposal for join " ++ err.Error))), t1)
          | (prop, _, none) =>
            let t2 := t1 ++ [Event.GetSignedProposal prop]
            match x.GetSignedProposal prop signer with
            | (_, some err) =>
              (Outcome.returned (some (GoError.errorString
                  ("Error creating signed proposal " ++ err.Error))), t2)
            | (signedProp, none) =>
              match cf.EndorserClient with
              | none => (Outcome.panicked nilDereference, t2)
              | some endorser =>
                let t3 := t2 ++ [Event.ProcessProposal signedProp]
                match endorser.ProcessProposal signedProp with
                | (_, some err) =>
                  (Outcome.returned (some (GoError.ProposalFailedErr err.Error)), t3)
                | (none, none) =>
                  (Outcome.returned (some (GoError.ProposalFailedErr "nil proposal response")),
                    t3)
                | (some proposalResp, none) =>
                  match proposalResp.Response with
                  | none => (Outcome.panicked nilDereference, t3)
                  | some response =>
                    if response.Status ≠ 0 ∧ response.Status ≠ 200 then
                      (Outcome.returned (some (GoError.ProposalFailedErr
                          ("bad proposal response " ++ formatInt response.Status))), t3)
                    else
                      (Outcome.returned none,
                        t3 ++ [Event.Info "Successfully submitted proposal to join channel"])

/-- Function `join` (join.go, lines 137-151); `cmd` and `args` are not used by
the body and are left out. -/
def join (x : Externals) (genesisBlockPath : String) (cf : Option ChannelCmdFactory) :
    Outcome × List Event :=
  if genesisBlockPath = UndefinedParamValue then
    (Outcome.returned (some (GoError.errorString "Must supply genesis block path")), [])
  else
    match cf with
    | some c => executeJoin x genesisBlockPath (some c)
    | none =>
      let t0 := [Event.InitCmdFactory x.EndorserRequired x.OrdererNotRequired]
      match x.InitCmdFactory x.EndorserRequired x.OrdererNotRequired with
      | (_, some err) => (Outcome.returned (some err), t0)
      | (cf1, none) =>
        let r := executeJoin x genesisBlockPath cf1
        (r.1, t0 ++ r.2)

/-! ## peerclient.go -/

/-- Function `NewPeerClientFromEnv` (peerclient.go, lines 25-47). -/
def NewPeerClientFromEnv (x : Externals) : (Option PeerClient × Option GoError) × List Event :=
  match x.configFromEnv "peer" with
  | (_, _, _, some err) =>
    ((none, some (GoError.withMessage err "failed to load config for PeerClient")),
      [Event.configFromEnv "peer"])
  | (address, override, clientConfig, none) =>
    let clientConfig : ClientConfig := { clientConfig with Timeout := time.Second * 3 }
    let t := [Event.configFromEnv "peer", Event.NewGRPCClient clientConfig]
    match x.NewGRPCClient clientConfig with
    | (_, some err) =>
      ((none, some (GoError.withMessage err "failed to create PeerClient from config")), t)
    | (gClient, none) =>
      ((some { commonClient := { GRPCClient := gClient, address := address, sn := override } },
        none), t)

/-! ## Reading the trace -/

/-- The arguments of the `ProcessProposal` calls of a trace, in order. -/
def processProposalCalls : List Event → List (Option SignedProposal)
  | [] => []
  | Event.ProcessProposal sp :: rest => sp :: processProposalCalls rest
  | _ :: rest => processProposalCalls rest

/-! ## A concrete environment

Used to evaluate the definitions above on explicit inputs. -/

/-- A signer whose identity serializes to two bytes and whose signature of a
message is the message reversed. -/
def sampleSigner : SigningIdentity :=
  { Serialize := ([10, 20], none)
    GetIdentifier := "Org1MSP"
    Sign := fun b => (b.reverse, none) }

/-- An endorser that answers every signed proposal with the given reply. -/
def sampleEndorser (reply : Option ProposalResponse × Option GoError) : EndorserClient :=
  { ProcessProposal := fun _ => reply }

/-- A command factory made of `sampleSigner` and `sampleEndorser reply`. -/
def sampleFactory (reply : Option ProposalResponse × Option GoError) : ChannelCmdFactory :=
  { EndorserClient := some (sampleEndorser reply)
    Signer := some sampleSigner }

/-- A command factory with the sample signer and a nil endorser client. -/
def sampleFactoryNoEndorser : ChannelCmdFactory :=
  { EndorserClient := none
    Signer := some sampleSigner }

/-- An environment in which every file read yields `file`, proposals are
assembled and signed without error, and the configuration loaded from the
environment carries the timeout `loadedTimeout`. -/
def sampleExternals (file : Bytes × Option ReadFailure) (loadedTimeout : Duration) : Externals :=
  { JoinChain := "JoinChain"
    ChaincodeSpec_Type_value := fun s => if s = "GOLANG" then 1 else 0
    HeaderType_CONFIG := 1
    EndorserRequired := true
    OrdererNotRequired := false
    fileSystem := fun _ => file
    CreateProposalFromCIS := fun t c cis cr =>
      (some { headerType := t, channelId := c, invocationSpec := cis, creator := cr }, "tx0", none)
    GetSignedProposal := fun p s =>
      match p with
      | none => (none, some (GoError.errorString "nil arguments"))
      | some q =>
        match s.Sign q.creator with
        | (_, some e) => (none, some e)
        | (sig, none) => (some { ProposalBytes := q.creator, Signature := sig }, none)
    InitCmdFactory := fun _ _ => (some (sampleFactory (none, none)), none)
    configFromEnv := fun _ =>
      ("peer0:7051", "peer0", { SecOpts := some 7, KaOpts := some 9, Timeout := loadedTimeout },
        none)
    NewGRPCClient := fun _ => (some { handle := 1 }, none) }

/-- The environment `sampleExternals file 0` with a factory initialisation that
fails with `err`. -/
def sampleExternalsInitFails (file : Bytes × Option ReadFailure) (err : GoError) : Externals :=
  { sampleExternals file 0 with InitCmdFactory := fun _ _ => (none, some err) }

/-- The environment `sampleExternals ([], none) 0` with a configuration load that
fails with `err`. -/
def sampleExternalsLoadFails (err : GoError) : Externals :=
  { sampleExternals ([], none) 0 with
    configFromEnv := fun _ => ("", "", { Timeout := 0 }, some err) }

/-- The environment `sampleExternals ([], none) 0` with a client constructor that
fails with `err`. -/
def sampleExternalsDialFails (err : GoError) : Externals :=
  { sampleExternals ([], none) 0 with NewGRPCClient := fun _ => (none, some err) }

/-- The signed proposal that `sampleExternals` and `sampleSigner` produce. -/
def sampleSignedProposal : Option SignedProposal :=
  some { ProposalBytes := [10, 20], Signature := [20, 10] }

/-- The join specification built in the sample environment from a file that
holds the bytes 1, 2, 3. -/
def sampleSpec : Option ChaincodeSpec :=
  some { Type_ := 1
         ChaincodeId := some { Name := "cscc" }
         Input := some { Args := [[74, 111, 105, 110, 67, 104, 97, 105, 110], [1, 2, 3]] } }

/-- The proposal assembled in the sample environment around `sampleSpec`. -/
def sampleProposal : Option Proposal :=
  some { headerType := 1, channelId := "", invocationSpec := { ChaincodeSpec := sampleSpec },
         creator := [10, 20] }

end Peer

namespace Peer

/-! ## Shared lemmas -/

/-- Once the specification is built, the identity serialized, the proposal
assembled and signed, `executeJoin` on a factory that holds an endorser client
makes one call to the endorser and classifies its reply. -/
theorem executeJoin_after_signing (x : Externals) (genesisBlockPath : String)
    (cf : ChannelCmdFactory) (signer : SigningIdentity) (endorser : EndorserClient)
    (spec : Option ChaincodeSpec) (creator : Bytes)
    (prop : Option Proposal) (txid : String) (signedProp : Option SignedProposal)
    (hspec : (getJoinCCSpec x genesisBlockPath).1 = (spec, none))
    (hS : cf.Signer = some signer)
    (hser : signer.Serialize = (creator, none))
    (hprop : x.CreateProposalFromCIS x.HeaderType_CONFIG "" { ChaincodeSpec := spec } creator
      = (prop, txid, none))
    (hsign : x.GetSignedProposal prop signer = (signedProp, none))
    (hE : cf.EndorserClient = some endorser) :
    executeJoin x genesisBlockPath (some cf)
      = (let t3 := (getJoinCCSpec x genesisBlockPath).2 ++ [Event.Serialize,
            Event.CreateProposalFromCIS x.HeaderType_CONFIG "" { ChaincodeSpec := spec } creator]
            ++ [Event.GetSignedProposal prop] ++ [Event.ProcessProposal signedProp]
        match endorser.ProcessProposal signedProp with
        | (_, some err) => (Outcome.returned (some (GoError.ProposalFailedErr err.Error)), t3)
        | (none, none) =>
          (Outcome.returned (some (GoError.ProposalFailedErr "nil proposal response")), t3)
        | (some proposalResp, none) =>
          match proposalResp.Response with
          | none => (Outcome.panicked nilDereference, t3)
          | some response =>
            if response.Status ≠ 0 ∧ response.Status ≠ 200 then
              (Outcome.returned (some (GoError.ProposalFailedErr
                  ("bad proposal response " ++ formatInt response.Status))), t3)
            else
              (Outcome.returned none,
                t3 ++ [Event.Info "Successfully submitted proposal to join channel"])) := by
  unfold executeJoin
  rcases hg : getJoinCCSpec x genesisBlockPath with ⟨⟨s, e⟩, t0⟩
  rw [hg] at hspec
  simp only [Prod.mk.injEq] at hspec
  obtain ⟨rfl, rfl⟩ := hspec
  simp only [hS, hser, hprop, hsign, hE]

/-- Once the proposal is signed, `executeJoin` on a factory whose endorser client
is nil panics at the call, which is not made. -/
theorem executeJoin_nil_endorser (x : Externals) (genesisBlockPath : String)
    (cf : ChannelCmdFactory) (signer : SigningIdentity)
    (spec : Option ChaincodeSpec) (creator : Bytes)
    (prop : Option Proposal) (txid : String) (signedProp : Option SignedProposal)
    (hspec : (getJoinCCSpec x genesisBlockPath).1 = (spec, none))
    (hS : cf.Signer = some signer)
    (hser : signer.Serialize = (creator, none))
    (hprop : x.CreateProposalFromCIS x.HeaderType_CONFIG "" { ChaincodeSpec := spec } creator
      = (prop, txid, none))
    (hsign : x.GetSignedProposal prop signer = (signedProp, none))
    (hE : cf.EndorserClient = none) :
    executeJoin x genesisBlockPath (some cf)
      = (Outcome.panicked nilDereference,
          (getJoinCCSpec x genesisBlockPath).2 ++ [Event.Serialize,
            Event.CreateProposalFromCIS x.HeaderType_CONFIG "" { ChaincodeSpec := spec } creator]
            ++ [Event.GetSignedProposal prop]) := by
  unfold executeJoin
  rcases hg : getJoinCCSpec x genesisBlockPath with ⟨⟨s, e⟩, t0⟩
  rw [hg] at hspec
  simp only [Prod.mk.injEq] at hspec
  obtain ⟨rfl, rfl⟩ := hspec
  simp only [hS, hser, hprop, hsign, hE]

/-- The calls to the endorser found in a concatenation of traces. -/
theorem processProposalCalls_append (s t : List Event) :
    processProposalCalls (s ++ t) = processProposalCalls s ++ processProposalCalls t := by
  induction s with
  | nil => rfl
  | cons e s ih => cases e <;> simp [processProposalCalls, ih]

/-- Building the specification never calls the endorser. -/
theorem getJoinCCSpec_no_endorser_call (x : Externals) (genesisBlockPath : String) :
    processProposalCalls (getJoinCCSpec x genesisBlockPath).2 = [] := by
  unfold getJoinCCSpec
  split
  · rfl
  · split <;> rfl

/-- When building the specification fails, `executeJoin` returns the builder's
error and does nothing else. -/
theorem executeJoin_spec_error (x : Externals) (genesisBlockPath : String)
    (cf : Option ChannelCmdFactory) (spec : Option ChaincodeSpec) (err : GoError)
    (hspec : (getJoinCCSpec x genesisBlockPath).1 = (spec, some err)) :
    executeJoin x genesisBlockPath cf
      = (Outcome.returned (some err), (getJoinCCSpec x genesisBlockPath).2) := by
  unfold executeJoin
  rcases hg : getJoinCCSpec x genesisBlockPath with ⟨⟨s, e⟩, t0⟩
  rw [hg] at hspec
  simp only [Prod.mk.injEq] at hspec
  obtain ⟨rfl, rfl⟩ := hspec
  rfl

/-- With a nil command factory, `executeJoin` panics right after building the
specification. -/
theorem executeJoin_nil_factory (x : Externals) (genesisBlockPath : String)
    (spec : Option ChaincodeSpec)
    (hspec : (getJoinCCSpec x genesisBlockPath).1 = (spec, none)) :
    executeJoin x genesisBlockPath none
      = (Outcome.panicked nilDereference, (getJoinCCSpec x genesisBlockPath).2) := by
  unfold executeJoin
  rcases hg : getJoinCCSpec x genesisBlockPath with ⟨⟨s, e⟩, t0⟩
  rw [hg] at hspec
  simp only [Prod.mk.injEq] at hspec
  obtain ⟨rfl, rfl⟩ := hspec
  rfl

/-- With a factory whose signer is nil, `executeJoin` panics right after building
the specification. -/
theorem executeJoin_nil_signer (x : Externals) (genesisBlockPath : String)
    (cf : ChannelCmdFactory) (spec : Option ChaincodeSpec)
    (hspec : (getJoinCCSpec x genesisBlockPath).1 = (spec, none))
    (hS : cf.Signer = none) :
    executeJoin x genesisBlockPath (some cf)
      = (Outcome.panicked nilDereference, (getJoinCCSpec x genesisBlockPath).2) := by
  unfold executeJoin
  rcases hg : getJoinCCSpec x genesisBlockPath with ⟨⟨s, e⟩, t0⟩
  rw [hg] at hspec
  simp only [Prod.mk.injEq] at hspec
  obtain ⟨rfl, rfl⟩ := hspec
  simp only [hS]

/-- When serializing the identity fails, `executeJoin` returns an error naming
the signer and the cause, after the calls `Serialize` and `GetIdentifier`. -/
theorem executeJoin_serialize_error (x : Externals) (genesisBlockPath : String)
    (cf : ChannelCmdFactory) (signer : SigningIdentity) (spec : Option ChaincodeSpec)
    (creator : Bytes) (err : GoError)
    (hspec : (getJoinCCSpec x genesisBlockPath).1 = (spec, none))
    (hS : cf.Signer = some signer)
    (hser : signer.Serialize = (creator, some err)) :
    executeJoin x genesisBlockPath (some cf)
      = (Outcome.returned (some (GoError.errorString
            ("Error serializing identity for " ++ signer.GetIdentifier ++ ": " ++ err.Error))),
          (getJoinCCSpec x genesisBlockPath).2 ++ [Event.Serialize, Event.GetIdentifier]) := by
  unfold executeJoin
  rcases hg : getJoinCCSpec x genesisBlockPath with ⟨⟨s, e⟩, t0⟩
  rw [hg] at hspec
  simp only [Prod.mk.injEq] at hspec
  obtain ⟨rfl, rfl⟩ := hspec
  simp only [hS, hser]

/-- When assembling the proposal fails, `executeJoin` returns an error carrying
the cause. -/
theorem executeJoin_create_error (x : Externals) (genesisBlockPath : String)
    (cf : ChannelCmdFactory) (signer : SigningIdentity) (spec : Option ChaincodeSpec)
    (creator : Bytes) (prop : Option Proposal) (txid : String) (err : GoError)
    (hspec : (getJoinCCSpec x genesisBlockPath).1 = (spec, none))
    (hS : cf.Signer = some signer)
    (hser : signer.Serialize = (creator, none))
    (hprop : x.CreateProposalFromCIS x.HeaderType_CONFIG "" { ChaincodeSpec := spec } creator
      = (prop, txid, some err)) :
    executeJoin x genesisBlockPath (some cf)
      = (Outcome.returned (some (GoError.errorString
            ("Error creating proposal for join " ++ err.Error))),
          (getJoinCCSpec x genesisBlockPath).2 ++ [Event.Serialize,
            Event.CreateProposalFromCIS x.HeaderType_CONFIG "" { ChaincodeSpec := spec }
              creator]) := by
  unfold executeJoin
  rcases hg : getJoinCCSpec x genesisBlockPath with ⟨⟨s, e⟩, t0⟩
  rw [hg] at hspec
  simp only [Prod.mk.injEq] at hspec
  obtain ⟨rfl, rfl⟩ := hspec
  simp only [hS, hser, hprop]

/-- When signing the proposal fails, `executeJoin` returns an error carrying the
cause. -/
theorem executeJoin_sign_error (x : Externals) (genesisBlockPath : String)
    (cf : ChannelCmdFactory) (signer : SigningIdentity) (spec : Option ChaincodeSpec)
    (creator : Bytes) (prop : Option Proposal) (txid : String)
    (signedProp : Option SignedProposal) (err : GoError)
    (hspec : (getJoinCCSpec x genesisBlockPath).1 = (spec, none))
    (hS : cf.Signer = some signer)
    (hser : signer.Serialize = (creator, none))
    (hprop : x.CreateProposalFromCIS x.HeaderType_CONFIG "" { ChaincodeSpec := spec } creator
      = (prop, txid, none))
    (hsign : x.GetSignedProposal prop signer = (signedProp, some err)) :
    executeJoin x genesisBlockPath (some cf)
      = (Outcome.returned (some (GoError.errorString
            ("Error creating signed proposal " ++ err.Error))),
          (getJoinCCSpec x genesisBlockPath).2 ++ [Event.Serialize,
            Event.CreateProposalFromCIS x.HeaderType_CONFIG "" { ChaincodeSpec := spec } creator]
            ++ [Event.GetSignedProposal prop]) := by
  unfold executeJoin
  rcases hg : getJoinCCSpec x genesisBlockPath with ⟨⟨s, e⟩, t0⟩
  rw [hg] at hspec
  simp only [Prod.mk.injEq] at hspec
  obtain ⟨rfl, rfl⟩ := hspec
  simp only [hS, hser, hprop, hsign]

/-- Once the proposal is signed and the factory holds an endorser client, the
endorser is called exactly once, with the signed proposal, whatever it
replies. -/
theorem executeJoin_after_signing_calls (x : Externals) (genesisBlockPath : String)
    (cf : ChannelCmdFactory) (signer : SigningIdentity) (endorser : EndorserClient)
    (spec : Option ChaincodeSpec) (creator : Bytes)
    (prop : Option Proposal) (txid : String) (signedProp : Option SignedProposal)
    (hspec : (getJoinCCSpec x genesisBlockPath).1 = (spec, none))
    (hS : cf.Signer = some signer)
    (hser : signer.Serialize = (creator, none))
    (hprop : x.CreateProposalFromCIS x.HeaderType_CONFIG "" { ChaincodeSpec := spec } creator
      = (prop, txid, none))
    (hsign : x.GetSignedProposal prop signer = (signedProp, none))
    (hE : cf.EndorserClient = some endorser) :
    processProposalCalls (executeJoin x genesisBlockPath (some cf)).2 = [signedProp] := by
  rw [executeJoin_after_signing x genesisBlockPath cf signer endorser spec creator prop txid
    signedProp hspec hS hser hprop hsign hE]
  have h0 := getJoinCCSpec_no_endorser_call x genesisBlockPath
  rcases hr : endorser.ProcessProposal signedProp with ⟨r, e⟩
  cases e with
  | some err => simp [processProposalCalls_append, processProposalCalls, h0]
  | none =>
    cases r with
    | none => simp [processProposalCalls_append, processProposalCalls, h0]
    | some pr =>
      cases hi : pr.Response with
      | none => simp [hi, processProposalCalls_append, processProposalCalls, h0]
      | some resp =>
        simp only [hi]
        split <;> simp [processProposalCalls_append, processProposalCalls, h0]

/-- The fixed text of the nil-response failure differs from every
"bad proposal response" text. -/
theorem nil_text_ne_bad_text (t : String) :
    "nil proposal response" ≠ "bad proposal response " ++ t := by
  intro h
  have h1 : "nil proposal response".data = ("bad proposal response " ++ t).data :=
    congrArg String.data h
  rw [String.data_append] at h1
  have hn : "nil proposal response".data = 'n' :: "il proposal response".data := rfl
  have hb : "bad proposal response ".data = 'b' :: "ad proposal response ".data := rfl
  rw [hn, hb, List.cons_append] at h1
  injection h1 with hc _
  revert hc
  decide

/-- An error returned by `ioutil.ReadFile` is an `os.PathError` that holds the
file name the function was given. -/
theorem ReadFile_error_is_PathError (x : Externals) (filename : String) (err : GoError)
    (h : (ioutil.ReadFile x filename).2 = some err) :
    ∃ op cause, err = GoError.PathError op filename cause := by
  unfold ioutil.ReadFile at h
  rcases hf : x.fileSystem filename with ⟨content, failure⟩
  rw [hf] at h
  cases failure with
  | none => simp at h
  | some f =>
    simp only [Option.some.injEq] at h
    exact ⟨f.Op, f.Err, h.symm⟩

/-- The text of an `os.PathError`, after any fixed text, contains the file
name. -/
theorem pathError_text_contains_path (lead op path cause : String) :
    path.data <:+: (lead ++ (GoError.PathError op path cause).Error).data := by
  refine ⟨lead.data ++ (op.data ++ " ".data), ": ".data ++ cause.data, ?_⟩
  show _ = (lead ++ (op ++ " " ++ path ++ ": " ++ cause)).data
  simp only [String.data_append, List.append_assoc]

/-! ## Classification of the endorser's reply -/

/-- C1 (the code at the failing input): a non-nil proposal response returned
with a nil error, all preparation steps having succeeded, for which
`executeJoin` returns neither nil nor any error: the inner `Response` is
absent and the read of its status panics. -/
theorem executeJoin_no_result_on_absent_inner_response :
    (sampleEndorser (some { Response := none }, none)).ProcessProposal sampleSignedProposal
        = (some { Response := none }, none)
      ∧ ¬ ∃ err, (executeJoin (sampleExternals ([1, 2, 3], none) 0) "/tmp/genesis.block"
          (some (sampleFactory (some { Response := none }, none)))).1 = Outcome.returned err := by
  refine ⟨rfl, ?_⟩
  rintro ⟨err, h⟩
  have hp : (executeJoin (sampleExternals ([1, 2, 3], none) 0) "/tmp/genesis.block"
      (some (sampleFactory (some { Response := none }, none)))).1
      = Outcome.panicked nilDereference := rfl
  rw [hp] at h
  cases h

/-- C2: when the four preparation steps succeed and the endorser returns a nil
response together with a nil error, `executeJoin` returns the error
`ProposalFailedErr("nil proposal response")`, whose message is
"proposal failed (err: nil proposal response)"; it does not return nil. -/
theorem executeJoin_nil_response (x : Externals) (genesisBlockPath : String)
    (cf : ChannelCmdFactory) (signer : SigningIdentity) (endorser : EndorserClient)
    (spec : Option ChaincodeSpec) (creator : Bytes)
    (prop : Option Proposal) (txid : String) (signedProp : Option SignedProposal)
    (hspec : (getJoinCCSpec x genesisBlockPath).1 = (spec, none))
    (hS : cf.Signer = some signer)
    (hser : signer.Serialize = (creator, none))
    (hprop : x.CreateProposalFromCIS x.HeaderType_CONFIG "" { ChaincodeSpec := spec } creator
      = (prop, txid, none))
    (hsign : x.GetSignedProposal prop signer = (signedProp, none))
    (hE : cf.EndorserClient = some endorser)
    (hresp : endorser.ProcessProposal signedProp = (none, none)) :
    (executeJoin x genesisBlockPath (some cf)).1
        = Outcome.returned (some (GoError.ProposalFailedErr "nil proposal response"))
      ∧ (GoError.ProposalFailedErr "nil proposal response").Error
        = "proposal failed (err: nil proposal response)"
      ∧ (executeJoin x genesisBlockPath (some cf)).1 ≠ Outcome.returned none := by
  have h : (executeJoin x genesisBlockPath (some cf)).1
      = Outcome.returned (some (GoError.ProposalFailedErr "nil proposal response")) := by
    rw [executeJoin_after_signing x genesisBlockPath cf signer endorser spec creator prop txid
      signedProp hspec hS hser hprop hsign hE]
    simp only [hresp]
  refine ⟨h, by decide, ?_⟩
  rw [h]
  simp

/-- C2 (witness): the sample endorser answers with a nil response and a nil
error. -/
theorem executeJoin_nil_response_witness :
    (executeJoin (sampleExternals ([1, 2, 3], none) 0) "/tmp/genesis.block"
          (some (sampleFactory (none, none)))).1
        = Outcome.returned (some (GoError.ProposalFailedErr "nil proposal response"))
      ∧ (GoError.ProposalFailedErr "nil proposal response").Error
        = "proposal failed (err: nil proposal response)"
      ∧ (executeJoin (sampleExternals ([1, 2, 3], none) 0) "/tmp/genesis.block"
          (some (sampleFactory (none, none)))).1 ≠ Outcome.returned none :=
  executeJoin_nil_response (sampleExternals ([1, 2, 3], none) 0) "/tmp/genesis.block"
    (sampleFactory (none, none)) sampleSigner (sampleEndorser (none, none))
    sampleSpec [10, 20] sampleProposal "tx0" sampleSignedProposal
    rfl rfl rfl rfl rfl rfl rfl

/-- C3: when the preparation steps succeed and the endorser call returns a
non-nil error `e`, `executeJoin` returns `ProposalFailedErr(e.Error())`,
whatever response accompanies the error; it does not return nil. -/
theorem executeJoin_transport_error (x : Externals) (genesisBlockPath : String)
    (cf : ChannelCmdFactory) (signer : SigningIdentity) (endorser : EndorserClient)
    (spec : Option ChaincodeSpec) (creator : Bytes)
    (prop : Option Proposal) (txid : String) (signedProp : Option SignedProposal)
    (proposalResp : Option ProposalResponse) (e : GoError)
    (hspec : (getJoinCCSpec x genesisBlockPath).1 = (spec, none))
    (hS : cf.Signer = some signer)
    (hser : signer.Serialize = (creator, none))
    (hprop : x.CreateProposalFromCIS x.HeaderType_CONFIG "" { ChaincodeSpec := spec } creator
      = (prop, txid, none))
    (hsign : x.GetSignedProposal prop signer = (signedProp, none))
    (hE : cf.EndorserClient = some endorser)
    (hresp : endorser.ProcessProposal signedProp = (proposalResp, some e)) :
    (executeJoin x genesisBlockPath (some cf)).1
        = Outcome.returned (some (GoError.ProposalFailedErr e.Error))
      ∧ (GoError.ProposalFailedErr e.Error).Error = "proposal failed (err: " ++ e.Error ++ ")"
      ∧ (executeJoin x genesisBlockPath (some cf)).1 ≠ Outcome.returned none := by
  have h : (executeJoin x genesisBlockPath (some cf)).1
      = Outcome.returned (some (GoError.ProposalFailedErr e.Error)) := by
    rw [executeJoin_after_signing x genesisBlockPath cf signer endorser spec creator prop txid
      signedProp hspec hS hser hprop hsign hE]
    simp only [hresp]
  refine ⟨h, rfl, ?_⟩
  rw [h]
  simp

/-- C3 (witness): the endorser call returns the error "connection refused"
together with a response of status 200; the outcome is the failure wrapping
"connection refused". -/
theorem executeJoin_transport_error_witness :
    (executeJoin (sampleExternals ([1, 2, 3], none) 0) "/tmp/genesis.block"
          (some (sampleFactory (some { Response := some { Status := 200 } },
            some (GoError.foreign "connection refused"))))).1
        = Outcome.returned (some (GoError.ProposalFailedErr
            (GoError.foreign "connection refused").Error))
      ∧ (GoError.ProposalFailedErr (GoError.foreign "connection refused").Error).Error
        = "proposal failed (err: " ++ (GoError.foreign "connection refused").Error ++ ")"
      ∧ (executeJoin (sampleExternals ([1, 2, 3], none) 0) "/tmp/genesis.block"
          (some (sampleFactory (some { Response := some { Status := 200 } },
            some (GoError.foreign "connection refused"))))).1 ≠ Outcome.returned none :=
  executeJoin_transport_error (sampleExternals ([1, 2, 3], none) 0) "/tmp/genesis.block"
    (sampleFactory (some { Response := some { Status := 200 } },
      some (GoError.foreign "connection refused")))
    sampleSigner
    (sampleEndorser (some { Response := some { Status := 200 } },
      some (GoError.foreign "connection refused")))
    sampleSpec [10, 20] sampleProposal "tx0" sampleSignedProposal
    (some { Response := some { Status := 200 } })
    (GoError.foreign "connection refused") rfl rfl rfl rfl rfl rfl rfl

/-! ## The guard of `join` -/

/-- C4: with the genesis block path undefined (the empty string), `join` returns
the error "Must supply genesis block path" and its trace is empty, whatever
the command factory: no file read, no factory initialisation, no call to the
signer and no call to the endorser. -/
theorem join_undefined_path (x : Externals) (cf : Option ChannelCmdFactory) :
    UndefinedParamValue = ""
      ∧ join x UndefinedParamValue cf
        = (Outcome.returned (some (GoError.errorString "Must supply genesis block path")), [])
      ∧ (GoError.errorString "Must supply genesis block path").Error
        = "Must supply genesis block path"
      ∧ processProposalCalls (join x UndefinedParamValue cf).2 = [] := by
  have h : join x UndefinedParamValue cf
      = (Outcome.returned (some (GoError.errorString "Must supply genesis block path")), []) := by
    unfold join
    simp
  refine ⟨rfl, h, rfl, ?_⟩
  rw [h]
  rfl

/-! ## Building the join specification -/

/-- C5: for a defined path `p` whose read fails, with error `err`,
`getJoinCCSpec` reads the file once and returns no specification and the error
`GBFileNotFoundErr(err.Error())`; its message is
"genesis block file not found " followed by the text of `err`, and it
contains the path `p`. -/
theorem getJoinCCSpec_unreadable_file (x : Externals) (p : String) (err : GoError)
    (hp : p ≠ UndefinedParamValue) (hread : (ioutil.ReadFile x p).2 = some err) :
    getJoinCCSpec x p
        = ((none, some (GoError.GBFileNotFoundErr err.Error)), [Event.ReadFile p])
      ∧ (GoError.GBFileNotFoundErr err.Error).Error
        = "genesis block file not found " ++ err.Error
      ∧ p.data <:+: (GoError.GBFileNotFoundErr err.Error).Error.data := by
  refine ⟨?_, rfl, ?_⟩
  · unfold getJoinCCSpec
    rcases hr : ioutil.ReadFile x p with ⟨gb, e⟩
    rw [hr] at hread
    simp only at hread
    subst hread
    simp [hp]
  · obtain ⟨op, cause, rfl⟩ := ReadFile_error_is_PathError x p err hread
    exact pathError_text_contains_path "genesis block file not found " op p cause

/-- C5 (witness): opening "/tmp/missing.block" fails; the returned error has the
message
"genesis block file not found open /tmp/missing.block: no such file or directory",
which contains the path. -/
theorem getJoinCCSpec_unreadable_file_witness :
    getJoinCCSpec (sampleExternals ([], some { Op := "open", Err := "no such file or directory" })
          0) "/tmp/missing.block"
        = ((none, some (GoError.GBFileNotFoundErr
            "open /tmp/missing.block: no such file or directory")),
          [Event.ReadFile "/tmp/missing.block"])
      ∧ (GoError.GBFileNotFoundErr "open /tmp/missing.block: no such file or directory").Error
        = "genesis block file not found open /tmp/missing.block: no such file or directory"
      ∧ "/tmp/missing.block".data
        <:+: "genesis block file not found open /tmp/missing.block: no such file or directory".data :=
  getJoinCCSpec_unreadable_file
    (sampleExternals ([], some { Op := "open", Err := "no such file or directory" }) 0)
    "/tmp/missing.block"
    (GoError.PathError "open" "/tmp/missing.block" "no such file or directory")
    (by decide) rfl

/-- C6: for a defined path whose read yields the bytes `b`, `getJoinCCSpec`
returns a specification and a nil error; the input of the specification has
exactly the two arguments `[]byte(cscc.JoinChain)`, the UTF-8 bytes of the
marker, and `b`, in this order, and its chaincode id is named "cscc". -/
theorem getJoinCCSpec_readable_file (x : Externals) (p : String) (b : Bytes)
    (hp : p ≠ UndefinedParamValue) (hread : ioutil.ReadFile x p = (b, none)) :
    ∃ spec input id,
      (getJoinCCSpec x p).1 = (some spec, none)
        ∧ spec.Input = some input
        ∧ input.Args = [x.JoinChain.toUTF8.data.toList, b]
        ∧ input.Args.length = 2
        ∧ input.Args[0]? = some x.JoinChain.toUTF8.data.toList
        ∧ input.Args[1]? = some b
        ∧ spec.ChaincodeId = some id
        ∧ id.Name = "cscc"
        ∧ spec.Type_ = x.ChaincodeSpec_Type_value "GOLANG" := by
  refine ⟨{ Type_ := x.ChaincodeSpec_Type_value "GOLANG"
            ChaincodeId := some { Name := "cscc" }
            Input := some { Args := [stringBytes x.JoinChain, b] } },
    { Args := [stringBytes x.JoinChain, b] }, { Name := "cscc" }, ?_, rfl, rfl, rfl, rfl, rfl,
    rfl, rfl, rfl⟩
  unfold getJoinCCSpec
  simp [hp, hread]

/-- C6 (witness): the marker is "JoinChain" and the file holds the bytes 1, 2,
3; the arguments are the nine bytes of "JoinChain" followed by 1, 2, 3. -/
theorem getJoinCCSpec_readable_file_witness :
    (getJoinCCSpec (sampleExternals ([1, 2, 3], none) 0) "/tmp/genesis.block").1
        = (some { Type_ := 1
                  ChaincodeId := some { Name := "cscc" }
                  Input := some
                    { Args := [[74, 111, 105, 110, 67, 104, 97, 105, 110], [1, 2, 3]] } },
          none)
      ∧ ∃ spec input id,
        (getJoinCCSpec (sampleExternals ([1, 2, 3], none) 0) "/tmp/genesis.block").1
            = (some spec, none)
          ∧ spec.Input = some input
          ∧ input.Args = [[74, 111, 105, 110, 67, 104, 97, 105, 110], [1, 2, 3]]
          ∧ input.Args.length = 2
          ∧ input.Args[0]? = some [74, 111, 105, 110, 67, 104, 97, 105, 110]
          ∧ input.Args[1]? = some [1, 2, 3]
          ∧ spec.ChaincodeId = some id
          ∧ id.Name = "cscc"
          ∧ spec.Type_ = 1 :=
  ⟨rfl, getJoinCCSpec_readable_file (sampleExternals ([1, 2, 3], none) 0) "/tmp/genesis.block"
    [1, 2, 3] (by decide) rfl⟩

/-! ## Calls to the endorser -/

/-- C7 (amended): in one run of `executeJoin` the endorser's `ProcessProposal` is
called at most once; it is not called when building the specification,
serializing the identity, assembling the proposal or signing fails, and
`executeJoin` then returns the error of that step; when all four steps
succeed and the endorser client of the command factory is not nil, it is
called exactly once, with the signed proposal that the signing step
produced. -/
theorem executeJoin_endorser_calls (x : Externals) (genesisBlockPath : String)
    (cf : Option ChannelCmdFactory) :
    (processProposalCalls (executeJoin x genesisBlockPath cf).2).length ≤ 1
      ∧ (∀ spec err, (getJoinCCSpec x genesisBlockPath).1 = (spec, some err) →
          (executeJoin x genesisBlockPath cf).1 = Outcome.returned (some err)
            ∧ processProposalCalls (executeJoin x genesisBlockPath cf).2 = [])
      ∧ (∀ f signer spec, cf = some f → f.Signer = some signer →
          (getJoinCCSpec x genesisBlockPath).1 = (spec, none) →
          (∀ creator err, signer.Serialize = (creator, some err) →
            (executeJoin x genesisBlockPath cf).1
                = Outcome.returned (some (GoError.errorString
                    ("Error serializing identity for " ++ signer.GetIdentifier ++ ": "
                      ++ err.Error)))
              ∧ processProposalCalls (executeJoin x genesisBlockPath cf).2 = [])
          ∧ (∀ creator, signer.Serialize = (creator, none) →
              (∀ prop txid err,
                x.CreateProposalFromCIS x.HeaderType_CONFIG "" { ChaincodeSpec := spec } creator
                    = (prop, txid, some err) →
                (executeJoin x genesisBlockPath cf).1
                    = Outcome.returned (some (GoError.errorString
                        ("Error creating proposal for join " ++ err.Error)))
                  ∧ processProposalCalls (executeJoin x genesisBlockPath cf).2 = [])
              ∧ (∀ prop txid,
                  x.CreateProposalFromCIS x.HeaderType_CONFIG "" { ChaincodeSpec := spec } creator
                      = (prop, txid, none) →
                  (∀ signedProp err, x.GetSignedProposal prop signer = (signedProp, some err) →
                    (executeJoin x genesisBlockPath cf).1
                        = Outcome.returned (some (GoError.errorString
                            ("Error creating signed proposal " ++ err.Error)))
                      ∧ processProposalCalls (executeJoin x genesisBlockPath cf).2 = [])
                  ∧ (∀ signedProp, x.GetSignedProposal prop signer = (signedProp, none) →
                      ∀ endorser, f.EndorserClient = some endorser →
                        processProposalCalls (executeJoin x genesisBlockPath cf).2
                          = [signedProp])))) := by
  have h0 := getJoinCCSpec_no_endorser_call x genesisBlockPath
  have hcases : ∀ spec err, (getJoinCCSpec x genesisBlockPath).1 = (spec, some err) →
      (executeJoin x genesisBlockPath cf).1 = Outcome.returned (some err)
        ∧ processProposalCalls (executeJoin x genesisBlockPath cf).2 = [] := by
    intro spec err hspec
    rw [executeJoin_spec_error x genesisBlockPath cf spec err hspec]
    exact ⟨rfl, h0⟩
  have hrest : ∀ f signer spec, cf = some f → f.Signer = some signer →
      (getJoinCCSpec x genesisBlockPath).1 = (spec, none) →
      (∀ creator err, signer.Serialize = (creator, some err) →
        (executeJoin x genesisBlockPath cf).1
            = Outcome.returned (some (GoError.errorString
                ("Error serializing identity for " ++ signer.GetIdentifier ++ ": "
                  ++ err.Error)))
          ∧ processProposalCalls (executeJoin x genesisBlockPath cf).2 = [])
      ∧ (∀ creator, signer.Serialize = (creator, none) →
          (∀ prop txid err,
            x.CreateProposalFromCIS x.HeaderType_CONFIG "" { ChaincodeSpec := spec } creator
                = (prop, txid, some err) →
            (executeJoin x genesisBlockPath cf).1
                = Outcome.returned (some (GoError.errorString
                    ("Error creating proposal for join " ++ err.Error)))
              ∧ processProposalCalls (executeJoin x genesisBlockPath cf).2 = [])
          ∧ (∀ prop txid,
              x.CreateProposalFromCIS x.HeaderType_CONFIG "" { ChaincodeSpec := spec } creator
                  = (prop, txid, none) →
              (∀ signedProp err, x.GetSignedProposal prop signer = (signedProp, some err) →
                (executeJoin x genesisBlockPath cf).1
                    = Outcome.returned (some (GoError.errorString
                        ("Error creating signed proposal " ++ err.Error)))
                  ∧ processProposalCalls (executeJoin x genesisBlockPath cf).2 = [])
              ∧ (∀ signedProp, x.GetSignedProposal prop signer = (signedProp, none) →
                  ∀ endorser, f.EndorserClient = some endorser →
                    processProposalCalls (executeJoin x genesisBlockPath cf).2
                      = [signedProp]))) := by
    intro f signer spec hcf hS hspec
    subst hcf
    refine ⟨?_, ?_⟩
    · intro creator err hser
      rw [executeJoin_serialize_error x genesisBlockPath f signer spec creator err hspec hS hser]
      exact ⟨rfl, by simp [processProposalCalls_append, processProposalCalls, h0]⟩
    · intro creator hser
      refine ⟨?_, ?_⟩
      · intro prop txid err hprop
        rw [executeJoin_create_error x genesisBlockPath f signer spec creator prop txid err
          hspec hS hser hprop]
        exact ⟨rfl, by simp [processProposalCalls_append, processProposalCalls, h0]⟩
      · intro prop txid hprop
        refine ⟨?_, ?_⟩
        · intro signedProp err hsign
          rw [executeJoin_sign_error x genesisBlockPath f signer spec creator prop txid
            signedProp err hspec hS hser hprop hsign]
          exact ⟨rfl, by simp [processProposalCalls_append, processProposalCalls, h0]⟩
        · intro signedProp hsign endorser hE
          exact executeJoin_after_signing_calls x genesisBlockPath f signer endorser spec creator
            prop txid signedProp hspec hS hser hprop hsign hE
  refine ⟨?_, hcases, hrest⟩
  rcases hg : (getJoinCCSpec x genesisBlockPath).1 with ⟨spec, e⟩
  cases e with
  | some err => rw [(hcases spec err hg).2]; simp
  | none =>
    cases cf with
    | none =>
      rw [executeJoin_nil_factory x genesisBlockPath spec hg, h0]
      simp
    | some f =>
      cases hS : f.Signer with
      | none =>
        rw [executeJoin_nil_signer x genesisBlockPath f spec hg hS, h0]
        simp
      | some signer =>
        obtain ⟨hser, hok⟩ := hrest f signer spec rfl hS hg
        rcases hs : signer.Serialize with ⟨creator, e1⟩
        cases e1 with
        | some err => rw [(hser creator err hs).2]; simp
        | none =>
          obtain ⟨hcreate, hok2⟩ := hok creator hs
          rcases hc : x.CreateProposalFromCIS x.HeaderType_CONFIG "" { ChaincodeSpec := spec }
            creator with ⟨prop, txid, e2⟩
          cases e2 with
          | some err => rw [(hcreate prop txid err hc).2]; simp
          | none =>
            obtain ⟨hsignerr, hok3⟩ := hok2 prop txid hc
            rcases hsg : x.GetSignedProposal prop signer with ⟨signedProp, e3⟩
            cases e3 with
            | some err => rw [(hsignerr signedProp err hsg).2]; simp
            | none =>
              cases hE : f.EndorserClient with
              | none =>
                rw [executeJoin_nil_endorser x genesisBlockPath f signer spec creator prop txid
                  signedProp hg hS hs hc hsg hE]
                simp [processProposalCalls_append, processProposalCalls, h0]
              | some endorser => rw [hok3 signedProp hsg endorser hE]; simp

/-- C7 (witness): in the sample environment all four steps succeed, the factory
holds an endorser client, and the endorser is called once, with the signed
proposal of the sample signer. -/
theorem executeJoin_endorser_calls_witness :
    processProposalCalls (executeJoin (sampleExternals ([1, 2, 3], none) 0) "/tmp/genesis.block"
        (some (sampleFactory (some { Response := some { Status := 200 } }, none)))).2
      = [sampleSignedProposal] :=
  ((((executeJoin_endorser_calls (sampleExternals ([1, 2, 3], none) 0) "/tmp/genesis.block"
      (some (sampleFactory (some { Response := some { Status := 200 } }, none)))).2.2
      (sampleFactory (some { Response := some { Status := 200 } }, none))
      sampleSigner sampleSpec rfl rfl rfl).2 [10, 20] rfl).2 sampleProposal "tx0" rfl).2
      sampleSignedProposal rfl
      (sampleEndorser (some { Response := some { Status := 200 } }, none)) rfl

/-- C7 (counterexample): building the specification, serializing the identity,
assembling the proposal and signing all succeed, the endorser client of the
command factory is nil, and `executeJoin` panics at the call without having
called `ProcessProposal`. -/
theorem executeJoin_no_call_without_endorser_client :
    (getJoinCCSpec (sampleExternals ([1, 2, 3], none) 0) "/tmp/genesis.block").1
        = (sampleSpec, none)
      ∧ sampleFactoryNoEndorser.Signer = some sampleSigner
      ∧ sampleSigner.Serialize = ([10, 20], none)
      ∧ (sampleExternals ([1, 2, 3], none) 0).CreateProposalFromCIS
          (sampleExternals ([1, 2, 3], none) 0).HeaderType_CONFIG ""
          { ChaincodeSpec := sampleSpec } [10, 20] = (sampleProposal, "tx0", none)
      ∧ (sampleExternals ([1, 2, 3], none) 0).GetSignedProposal sampleProposal sampleSigner
        = (sampleSignedProposal, none)
      ∧ sampleFactoryNoEndorser.EndorserClient = none
      ∧ (executeJoin (sampleExternals ([1, 2, 3], none) 0) "/tmp/genesis.block"
          (some sampleFactoryNoEndorser)).1 = Outcome.panicked nilDereference
      ∧ processProposalCalls (executeJoin (sampleExternals ([1, 2, 3], none) 0)
          "/tmp/genesis.block" (some sampleFactoryNoEndorser)).2 = [] := by
  exact ⟨rfl, rfl, rfl, rfl, rfl, rfl, rfl, rfl⟩

/-! ## The peer client -/

/-- C8: when `configFromEnv` loads address, override name and configuration
without error, the configuration handed to `comm.NewGRPCClient` is the loaded
one with `Timeout` replaced by three seconds (3000 milliseconds) and nothing
else changed, whatever timeout was loaded; when the constructor succeeds the
returned `PeerClient` stores the loaded address and override name. -/
theorem NewPeerClientFromEnv_timeout (x : Externals) (address override : String)
    (clientConfig : ClientConfig)
    (hload : x.configFromEnv "peer" = (address, override, clientConfig, none)) :
    (NewPeerClientFromEnv x).2
        = [Event.configFromEnv "peer",
            Event.NewGRPCClient { clientConfig with Timeout := 3 * time.Second }]
      ∧ 3 * time.Second = 3000 * time.Millisecond
      ∧ ({ clientConfig with Timeout := 3 * time.Second } : ClientConfig).Timeout
          = 3000 * time.Millisecond
      ∧ ({ clientConfig with Timeout := 3 * time.Second } : ClientConfig).SecOpts
          = clientConfig.SecOpts
      ∧ ({ clientConfig with Timeout := 3 * time.Second } : ClientConfig).KaOpts
          = clientConfig.KaOpts
      ∧ (∀ gClient,
          x.NewGRPCClient { clientConfig with Timeout := 3 * time.Second } = (gClient, none) →
          (NewPeerClientFromEnv x).1
            = (some { commonClient :=
                { GRPCClient := gClient, address := address, sn := override } }, none)) := by
  have h3 : time.Second * 3 = 3 * time.Second := by decide
  have hms : 3 * time.Second = 3000 * time.Millisecond := by decide
  refine ⟨?_, hms, hms, rfl, rfl, ?_⟩
  · unfold NewPeerClientFromEnv
    simp only [hload, h3]
    split <;> rfl
  · intro gClient hnew
    unfold NewPeerClientFromEnv
    simp only [hload, h3, hnew]

/-- C8 (witness): the loaded configuration carries a timeout of sixty seconds;
the constructor receives three seconds and the client keeps "peer0:7051" and
"peer0". -/
theorem NewPeerClientFromEnv_timeout_witness :
    (NewPeerClientFromEnv (sampleExternals ([], none) (60 * time.Second))).2
        = [Event.configFromEnv "peer",
            Event.NewGRPCClient { SecOpts := some 7, KaOpts := some 9, Timeout := 3000000000 }]
      ∧ (NewPeerClientFromEnv (sampleExternals ([], none) (60 * time.Second))).1
        = (some { commonClient :=
            { GRPCClient := some { handle := 1 }, address := "peer0:7051", sn := "peer0" } },
          none) :=
  ⟨(NewPeerClientFromEnv_timeout (sampleExternals ([], none) (60 * time.Second))
      "peer0:7051" "peer0" { SecOpts := some 7, KaOpts := some 9, Timeout := 60 * time.Second }
      rfl).1,
    (NewPeerClientFromEnv_timeout (sampleExternals ([], none) (60 * time.Second))
      "peer0:7051" "peer0" { SecOpts := some 7, KaOpts := some 9, Timeout := 60 * time.Second }
      rfl).2.2.2.2.2 (some { handle := 1 }) rfl⟩

/-! ## Telling the failures apart -/

/-- C9 (amended): the three failures that `executeJoin` returns after sending are
all values of the one type `ProposalFailedErr` and differ only in their text.
The nil-response failure and a rejected-status failure are always different
values; a transport failure is the same value as the nil-response failure
exactly when the text of the transport error is "nil proposal response", and
the same value as the rejected-status failure exactly when that text is
"bad proposal response " followed by the status. -/
theorem executeJoin_failures_differ_by_text (x : Externals) (genesisBlockPath : String)
    (signer : SigningIdentity) (transportFails nilReply rejects : EndorserClient)
    (spec : Option ChaincodeSpec) (creator : Bytes) (prop : Option Proposal) (txid : String)
    (signedProp : Option SignedProposal) (accompanying : Option ProposalResponse) (e : GoError)
    (proposalResp : ProposalResponse) (response : Response)
    (hspec : (getJoinCCSpec x genesisBlockPath).1 = (spec, none))
    (hser : signer.Serialize = (creator, none))
    (hprop : x.CreateProposalFromCIS x.HeaderType_CONFIG "" { ChaincodeSpec := spec } creator
      = (prop, txid, none))
    (hsign : x.GetSignedProposal prop signer = (signedProp, none))
    (hT : transportFails.ProcessProposal signedProp = (accompanying, some e))
    (hN : nilReply.ProcessProposal signedProp = (none, none))
    (hR : rejects.ProcessProposal signedProp = (some proposalResp, none))
    (hinner : proposalResp.Response = some response)
    (hbad : response.Status ≠ 0 ∧ response.Status ≠ 200) :
    (executeJoin x genesisBlockPath
          (some { EndorserClient := some transportFails, Signer := some signer })).1
        = Outcome.returned (some (GoError.ProposalFailedErr e.Error))
      ∧ (executeJoin x genesisBlockPath
          (some { EndorserClient := some nilReply, Signer := some signer })).1
        = Outcome.returned (some (GoError.ProposalFailedErr "nil proposal response"))
      ∧ (executeJoin x genesisBlockPath
          (some { EndorserClient := some rejects, Signer := some signer })).1
        = Outcome.returned (some (GoError.ProposalFailedErr
            ("bad proposal response " ++ formatInt response.Status)))
      ∧ (executeJoin x genesisBlockPath
          (some { EndorserClient := some nilReply, Signer := some signer })).1
        ≠ (executeJoin x genesisBlockPath
          (some { EndorserClient := some rejects, Signer := some signer })).1
      ∧ ((executeJoin x genesisBlockPath
            (some { EndorserClient := some transportFails, Signer := some signer })).1
          = (executeJoin x genesisBlockPath
            (some { EndorserClient := some nilReply, Signer := some signer })).1
          ↔ e.Error = "nil proposal response")
      ∧ ((executeJoin x genesisBlockPath
            (some { EndorserClient := some transportFails, Signer := some signer })).1
          = (executeJoin x genesisBlockPath
            (some { EndorserClient := some rejects, Signer := some signer })).1
          ↔ e.Error = "bad proposal response " ++ formatInt response.Status) := by
  have hTo : (executeJoin x genesisBlockPath
      (some { EndorserClient := some transportFails, Signer := some signer })).1
      = Outcome.returned (some (GoError.ProposalFailedErr e.Error)) := by
    rw [executeJoin_after_signing x genesisBlockPath
      { EndorserClient := some transportFails, Signer := some signer } signer transportFails
      spec creator prop txid signedProp hspec rfl hser hprop hsign rfl]
    simp only [hT]
  have hNo : (executeJoin x genesisBlockPath
      (some { EndorserClient := some nilReply, Signer := some signer })).1
      = Outcome.returned (some (GoError.ProposalFailedErr "nil proposal response")) := by
    rw [executeJoin_after_signing x genesisBlockPath
      { EndorserClient := some nilReply, Signer := some signer } signer nilReply
      spec creator prop txid signedProp hspec rfl hser hprop hsign rfl]
    simp only [hN]
  have hRo : (executeJoin x genesisBlockPath
      (some { EndorserClient := some rejects, Signer := some signer })).1
      = Outcome.returned (some (GoError.ProposalFailedErr
          ("bad proposal response " ++ formatInt response.Status))) := by
    rw [executeJoin_after_signing x genesisBlockPath
      { EndorserClient := some rejects, Signer := some signer } signer rejects
      spec creator prop txid signedProp hspec rfl hser hprop hsign rfl]
    simp only [hR, hinner]
    simp [hbad.1, hbad.2]
  refine ⟨hTo, hNo, hRo, ?_, ?_, ?_⟩
  · rw [hNo, hRo]
    intro h
    injection h with h
    injection h with h
    injection h with h
    exact nil_text_ne_bad_text _ h
  · rw [hTo, hNo]
    constructor
    · intro h
      injection h with h
      injection h with h
      injection h with h
    · intro h
      rw [h]
  · rw [hTo, hRo]
    constructor
    · intro h
      injection h with h
      injection h with h
      injection h with h
    · intro h
      rw [h]

/-- C9 (witness): a transport error "connection refused", a nil reply and a
reply of status 500 give three different failures. -/
theorem executeJoin_failures_differ_by_text_witness :
    (executeJoin (sampleExternals ([1, 2, 3], none) 0) "/tmp/genesis.block"
        (some { EndorserClient := some (sampleEndorser (none, none)),
                Signer := some sampleSigner })).1
      ≠ (executeJoin (sampleExternals ([1, 2, 3], none) 0) "/tmp/genesis.block"
        (some { EndorserClient := some (sampleEndorser
                  (some { Response := some { Status := 500 } }, none)),
                Signer := some sampleSigner })).1 :=
  (executeJoin_failures_differ_by_text (sampleExternals ([1, 2, 3], none) 0)
    "/tmp/genesis.block" sampleSigner
    (sampleEndorser (none, some (GoError.foreign "connection refused")))
    (sampleEndorser (none, none))
    (sampleEndorser (some { Response := some { Status := 500 } }, none))
    sampleSpec [10, 20] sampleProposal "tx0" sampleSignedProposal none
    (GoError.foreign "connection refused")
    { Response := some { Status := 500 } } { Status := 500 }
    rfl rfl rfl rfl rfl rfl rfl rfl (by decide)).2.2.2.1

/-- C9 (counterexample): two different failure causes with one error value.  A
transport error whose text is "nil proposal response" gives the same outcome
as a nil reply, and a transport error whose text is
"bad proposal response 500" gives the same outcome as a reply of status
500. -/
theorem executeJoin_transport_failure_not_told_apart :
    (executeJoin (sampleExternals ([1, 2, 3], none) 0) "/tmp/genesis.block"
        (some (sampleFactory (none, some (GoError.foreign "nil proposal response"))))).1
      = (executeJoin (sampleExternals ([1, 2, 3], none) 0) "/tmp/genesis.block"
        (some (sampleFactory (none, none)))).1
      ∧ (executeJoin (sampleExternals ([1, 2, 3], none) 0) "/tmp/genesis.block"
        (some (sampleFactory (none, some (GoError.foreign "bad proposal response 500"))))).1
      = (executeJoin (sampleExternals ([1, 2, 3], none) 0) "/tmp/genesis.block"
        (some (sampleFactory (some { Response := some { Status := 500 } }, none)))).1
      ∧ (executeJoin (sampleExternals ([1, 2, 3], none) 0) "/tmp/genesis.block"
        (some (sampleFactory (none, none)))).1
      = Outcome.returned (some (GoError.ProposalFailedErr "nil proposal response")) := by
  refine ⟨rfl, ?_, rfl⟩
  decide

/-! ## The status read -/

/-- C10 (the code at the failing input): the endorser returns, with a nil error,
a non-nil proposal response whose inner `Response` is nil; reading its status
dereferences the nil pointer and `executeJoin` panics, after its one call to
the endorser. -/
theorem executeJoin_panics_on_absent_inner_response :
    (executeJoin (sampleExternals ([7, 7], none) 0) "/tmp/genesis.block"
        (some (sampleFactory (some { Version := 1, Response := none }, none)))).1
      = Outcome.panicked nilDereference
      ∧ processProposalCalls (executeJoin (sampleExternals ([7, 7], none) 0)
          "/tmp/genesis.block"
          (some (sampleFactory (some { Version := 1, Response := none }, none)))).2
        = [sampleSignedProposal] := by
  exact ⟨rfl, rfl⟩

/-! ## Further properties of the same functions -/

/-- X1: with the genesis block path undefined, `getJoinCCSpec` returns no
specification and the error "Must supply genesis block file", without reading
any file. -/
theorem getJoinCCSpec_undefined_path (x : Externals) :
    getJoinCCSpec x UndefinedParamValue
        = ((none, some (GoError.errorString "Must supply genesis block file")), [])
      ∧ (GoError.errorString "Must supply genesis block file").Error
        = "Must supply genesis block file" := by
  refine ⟨?_, rfl⟩
  unfold getJoinCCSpec
  simp

/-- X2: with a defined path and a non-nil command factory, `join` is
`executeJoin` on that factory; the factory is not initialised again. -/
theorem join_with_factory (x : Externals) (genesisBlockPath : String) (cf : ChannelCmdFactory)
    (hp : genesisBlockPath ≠ UndefinedParamValue) :
    join x genesisBlockPath (some cf) = executeJoin x genesisBlockPath (some cf) := by
  unfold join
  simp [hp]

/-- X2 (witness): the path "/tmp/genesis.block" and the sample factory. -/
theorem join_with_factory_witness :
    join (sampleExternals ([1, 2, 3], none) 0) "/tmp/genesis.block"
        (some (sampleFactory (none, none)))
      = executeJoin (sampleExternals ([1, 2, 3], none) 0) "/tmp/genesis.block"
        (some (sampleFactory (none, none))) :=
  join_with_factory (sampleExternals ([1, 2, 3], none) 0) "/tmp/genesis.block"
    (sampleFactory (none, none)) (by decide)

/-- X3: with a defined path and a nil command factory, `join` initialises the
factory once; when the initialisation fails with `err`, `join` returns `err`
itself and neither reads the file nor calls the endorser. -/
theorem join_init_failure (x : Externals) (genesisBlockPath : String)
    (made : Option ChannelCmdFactory) (err : GoError)
    (hp : genesisBlockPath ≠ UndefinedParamValue)
    (hinit : x.InitCmdFactory x.EndorserRequired x.OrdererNotRequired = (made, some err)) :
    join x genesisBlockPath none
      = (Outcome.returned (some err),
          [Event.InitCmdFactory x.EndorserRequired x.OrdererNotRequired]) := by
  unfold join
  simp [hp, hinit]

/-- X3 (witness): the initialisation fails with "no endorser". -/
theorem join_init_failure_witness :
    join (sampleExternalsInitFails ([1, 2, 3], none) (GoError.foreign "no endorser"))
        "/tmp/genesis.block" none
      = (Outcome.returned (some (GoError.foreign "no endorser")),
          [Event.InitCmdFactory true false]) :=
  join_init_failure (sampleExternalsInitFails ([1, 2, 3], none) (GoError.foreign "no endorser"))
    "/tmp/genesis.block" none (GoError.foreign "no endorser") (by decide) rfl

/-- X4: when loading the configuration fails with `err`, `NewPeerClientFromEnv`
returns no client and `err` wrapped with the message
"failed to load config for PeerClient"; the client constructor is not
called. -/
theorem NewPeerClientFromEnv_load_failure (x : Externals) (address override : String)
    (clientConfig : ClientConfig) (err : GoError)
    (hload : x.configFromEnv "peer" = (address, override, clientConfig, some err)) :
    NewPeerClientFromEnv x
        = ((none, some (GoError.withMessage err "failed to load config for PeerClient")),
            [Event.configFromEnv "peer"])
      ∧ (GoError.withMessage err "failed to load config for PeerClient").Error
        = "failed to load config for PeerClient: " ++ err.Error := by
  refine ⟨?_, ?_⟩
  · unfold NewPeerClientFromEnv
    simp only [hload]
  · show "failed to load config for PeerClient" ++ ": " ++ err.Error = _
    rfl

/-- X4 (witness): the load fails with "no peer.address". -/
theorem NewPeerClientFromEnv_load_failure_witness :
    NewPeerClientFromEnv (sampleExternalsLoadFails (GoError.foreign "no peer.address"))
        = ((none, some (GoError.withMessage (GoError.foreign "no peer.address")
              "failed to load config for PeerClient")),
            [Event.configFromEnv "peer"])
      ∧ (GoError.withMessage (GoError.foreign "no peer.address")
            "failed to load config for PeerClient").Error
        = "failed to load config for PeerClient: " ++ (GoError.foreign "no peer.address").Error :=
  NewPeerClientFromEnv_load_failure (sampleExternalsLoadFails (GoError.foreign "no peer.address"))
    "" "" { Timeout := 0 } (GoError.foreign "no peer.address") rfl

/-- X5: when the configuration loads and the client constructor fails with
`err`, `NewPeerClientFromEnv` returns no client and `err` wrapped with the
message "failed to create PeerClient from config". -/
theorem NewPeerClientFromEnv_constructor_failure (x : Externals) (address override : String)
    (clientConfig : ClientConfig) (gClient : Option GRPCClient) (err : GoError)
    (hload : x.configFromEnv "peer" = (address, override, clientConfig, none))
    (hnew : x.NewGRPCClient { clientConfig with Timeout := 3 * time.Second }
      = (gClient, some err)) :
    (NewPeerClientFromEnv x).1
      = (none, some (GoError.withMessage err "failed to create PeerClient from config")) := by
  have h3 : time.Second * 3 = 3 * time.Second := by decide
  unfold NewPeerClientFromEnv
  simp only [hload, h3, hnew]

/-- X5 (witness): the constructor fails with "bad TLS material". -/
theorem NewPeerClientFromEnv_constructor_failure_witness :
    (NewPeerClientFromEnv (sampleExternalsDialFails (GoError.foreign "bad TLS material"))).1
      = (none, some (GoError.withMessage (GoError.foreign "bad TLS material")
          "failed to create PeerClient from config")) :=
  NewPeerClientFromEnv_constructor_failure
    (sampleExternalsDialFails (GoError.foreign "bad TLS material"))
    "peer0:7051" "peer0" { SecOpts := some 7, KaOpts := some 9, Timeout := 0 } none
    (GoError.foreign "bad TLS material") rfl rfl

/-- X6: when the preparation steps succeed and the endorser returns, with a nil
error, a response whose inner `Response` has status 0 or 200, the trace of
`executeJoin` ends with the one log entry
"Successfully submitted proposal to join channel", and holds no other log
entry. -/
theorem executeJoin_success_logs_once (x : Externals) (genesisBlockPath : String)
    (cf : ChannelCmdFactory) (signer : SigningIdentity) (endorser : EndorserClient)
    (spec : Option ChaincodeSpec) (creator : Bytes)
    (prop : Option Proposal) (txid : String) (signedProp : Option SignedProposal)
    (proposalResp : ProposalResponse) (response : Response)
    (hspec : (getJoinCCSpec x genesisBlockPath).1 = (spec, none))
    (hS : cf.Signer = some signer)
    (hser : signer.Serialize = (creator, none))
    (hprop : x.CreateProposalFromCIS x.HeaderType_CONFIG "" { ChaincodeSpec := spec } creator
      = (prop, txid, none))
    (hsign : x.GetSignedProposal prop signer = (signedProp, none))
    (hE : cf.EndorserClient = some endorser)
    (hresp : endorser.ProcessProposal signedProp = (some proposalResp, none))
    (hinner : proposalResp.Response = some response)
    (hok : response.Status = 0 ∨ response.Status = 200) :
    (executeJoin x genesisBlockPath (some cf)).2
      = [Event.ReadFile genesisBlockPath, Event.Serialize,
          Event.CreateProposalFromCIS x.HeaderType_CONFIG "" { ChaincodeSpec := spec } creator,
          Event.GetSignedProposal prop, Event.ProcessProposal signedProp,
          Event.Info "Successfully submitted proposal to join channel"] := by
  have ht : (getJoinCCSpec x genesisBlockPath).2 = [Event.ReadFile genesisBlockPath] := by
    unfold getJoinCCSpec at hspec ⊢
    split
    · rename_i hu
      rw [if_pos hu] at hspec
      cases hspec
    · split <;> rfl
  rw [executeJoin_after_signing x genesisBlockPath cf signer endorser spec creator prop txid
    signedProp hspec hS hser hprop hsign hE]
  simp only [hresp, hinner, ht]
  rcases hok with h0 | h200
  · simp [h0]
  · simp [h200]

/-- X6 (witness): the endorser answers status 200. -/
theorem executeJoin_success_logs_once_witness :
    (executeJoin (sampleExternals ([1, 2, 3], none) 0) "/tmp/genesis.block"
        (some (sampleFactory (some { Response := some { Status := 200 } }, none)))).2
      = [Event.ReadFile "/tmp/genesis.block", Event.Serialize,
          Event.CreateProposalFromCIS 1 "" { ChaincodeSpec := sampleSpec } [10, 20],
          Event.GetSignedProposal sampleProposal,
          Event.ProcessProposal sampleSignedProposal,
          Event.Info "Successfully submitted proposal to join channel"] :=
  executeJoin_success_logs_once (sampleExternals ([1, 2, 3], none) 0) "/tmp/genesis.block"
    (sampleFactory (some { Response := some { Status := 200 } }, none))
    sampleSigner (sampleEndorser (some { Response := some { Status := 200 } }, none))
    sampleSpec [10, 20] sampleProposal "tx0" sampleSignedProposal
    { Response := some { Status := 200 } } { Status := 200 }
    rfl rfl rfl rfl rfl rfl rfl rfl (Or.inr rfl)

/-- X7: when the preparation steps succeed and the endorser returns, with a nil
error, a response whose inner `Response` is present with status `s`,
`executeJoin` returns nil exactly when `s` is 0 or 200, and for every other
`s` returns `ProposalFailedErr` whose message is
"proposal failed (err: bad proposal response " followed by the decimal
rendering of `s` and ")". -/
theorem executeJoin_status_classification (x : Externals) (genesisBlockPath : String)
    (cf : ChannelCmdFactory) (signer : SigningIdentity) (endorser : EndorserClient)
    (spec : Option ChaincodeSpec) (creator : Bytes)
    (prop : Option Proposal) (txid : String) (signedProp : Option SignedProposal)
    (proposalResp : ProposalResponse) (response : Response)
    (hspec : (getJoinCCSpec x genesisBlockPath).1 = (spec, none))
    (hS : cf.Signer = some signer)
    (hser : signer.Serialize = (creator, none))
    (hprop : x.CreateProposalFromCIS x.HeaderType_CONFIG "" { ChaincodeSpec := spec } creator
      = (prop, txid, none))
    (hsign : x.GetSignedProposal prop signer = (signedProp, none))
    (hE : cf.EndorserClient = some endorser)
    (hresp : endorser.ProcessProposal signedProp = (some proposalResp, none))
    (hinner : proposalResp.Response = some response) :
    ((executeJoin x genesisBlockPath (some cf)).1 = Outcome.returned none
        ↔ (response.Status = 0 ∨ response.Status = 200))
      ∧ (¬ (response.Status = 0 ∨ response.Status = 200) →
          (executeJoin x genesisBlockPath (some cf)).1
            = Outcome.returned (some (GoError.ProposalFailedErr
                ("bad proposal response " ++ formatInt response.Status))))
      ∧ (GoError.ProposalFailedErr ("bad proposal response " ++ formatInt response.Status)).Error
          = "proposal failed (err: bad proposal response " ++ formatInt response.Status ++ ")" := by
  rw [executeJoin_after_signing x genesisBlockPath cf signer endorser spec creator prop txid
    signedProp hspec hS hser hprop hsign hE]
  simp only [hresp, hinner]
  refine ⟨?_, ?_, ?_⟩
  · by_cases h0 : response.Status = 0
    · simp [h0]
    · by_cases h200 : response.Status = 200
      · simp [h200]
      · simp [h0, h200]
  · intro h
    have h0 : response.Status ≠ 0 := fun h0 => h (Or.inl h0)
    have h200 : response.Status ≠ 200 := fun h200 => h (Or.inr h200)
    simp [h0, h200]
  · show "proposal failed (err: " ++ ("bad proposal response " ++ formatInt response.Status)
        ++ ")" = _
    rw [← String.append_assoc]
    rfl

/-- X7 (witness): the endorser answers status 404; `executeJoin` returns the
failure whose message is "proposal failed (err: bad proposal response 404)". -/
theorem executeJoin_status_classification_witness :
    (((executeJoin (sampleExternals ([1, 2, 3], none) 0) "/tmp/genesis.block"
          (some (sampleFactory (some { Response := some { Status := 404 } }, none)))).1
        = Outcome.returned none ↔ ((404 : Int) = 0 ∨ (404 : Int) = 200))
      ∧ (¬ ((404 : Int) = 0 ∨ (404 : Int) = 200) →
          (executeJoin (sampleExternals ([1, 2, 3], none) 0) "/tmp/genesis.block"
            (some (sampleFactory (some { Response := some { Status := 404 } }, none)))).1
            = Outcome.returned (some (GoError.ProposalFailedErr
                ("bad proposal response " ++ formatInt 404))))
      ∧ (GoError.ProposalFailedErr ("bad proposal response " ++ formatInt 404)).Error
          = "proposal failed (err: bad proposal response " ++ formatInt 404 ++ ")")
      ∧ formatInt 404 = "404" ∧ formatInt (-1) = "-1" ∧ formatInt 500 = "500" :=
  ⟨executeJoin_status_classification (sampleExternals ([1, 2, 3], none) 0) "/tmp/genesis.block"
      (sampleFactory (some { Response := some { Status := 404 } }, none))
      sampleSigner (sampleEndorser (some { Response := some { Status := 404 } }, none))
      sampleSpec [10, 20] sampleProposal "tx0" sampleSignedProposal
      { Response := some { Status := 404 } } { Status := 404 }
      rfl rfl rfl rfl rfl rfl rfl rfl,
    by decide, by decide, by decide⟩

end Peer
